import Mathlib

/-!
Verification development for the dnd-monster-pipeline repository.

The repository is a four-stage data pipeline (fetch, sample, enrich, persist)
over monster records from a remote catalog.  We shallowly embed the core of
`src/pipeline/transformation/api_client.py`, `src/pipeline/transformation/tasks.py`
and `main.py`:

* raw JSON payloads become the inductive `DnD.JValue`;
* Python truthiness becomes `DnD.truthy`;
* the pydantic models `Action`, `Monster`, `MonsterSummary` become structures,
  with `Option Int` for `Optional[int]` fields (`none` is the absent-marker);
* fallible Python code (raised exceptions) becomes `Except String`;
* the network is abstracted as oracles: the catalog fetch result and a
  `url → Except String JObject` detail oracle;
* `random.sample(population, k)` is modelled as taking the first `k` elements
  of an arbitrary permutation of the population (a uniform sample without
  replacement is exactly a prefix of a uniform shuffle); the permutation is a
  parameter of the embedding;
* the filesystem is an association list from filenames to stored documents
  (file contents are modelled at the document level, a `List Monster`,
  rather than as serialized bytes);
* the Airflow XCom pull of a previous stage's output becomes an
  `Option (List _)` parameter (`none` models an absent hand-off value; the
  Python guard `if not data` treats both `None` and `[]` as missing).
-/

namespace DnD

/-- A JSON value as produced by `response.json()` in Python: null, booleans,
integers, strings, arrays and objects.  (Floating-point numbers are not
modelled; no claim depends on them.) -/
inductive JValue where
  | null : JValue
  | bool : Bool → JValue
  | int : Int → JValue
  | str : String → JValue
  | arr : List JValue → JValue
  | obj : List (String × JValue) → JValue

/-- A decoded JSON object (a Python dict with string keys). -/
abbrev JObject := List (String × JValue)

/-- Python truthiness of a JSON-decoded value: `None`, `False`, `0`, `""`,
`[]` and `{}` are falsy, everything else is truthy. -/
def truthy : JValue → Bool
  | .null => false
  | .bool b => b
  | .int n => n != 0
  | .str s => s != ""
  | .arr xs => !xs.isEmpty
  | .obj fs => !fs.isEmpty

/-- `models.Action`: a monster action, both fields required strings. -/
structure Action where
  name : String
  desc : String
deriving Repr, DecidableEq

/-- `models.Monster`: the normalized detail record.  `hit_points` and
`armor_class` are `Optional[int]`; `none` is the absent-marker. -/
structure Monster where
  name : String
  hit_points : Option Int
  armor_class : Option Int
  actions : List Action
deriving Repr, DecidableEq

/-- `models.MonsterSummary`: one entry of the catalog list. -/
structure MonsterSummary where
  index : String
  name : String
  url : String
deriving Repr, DecidableEq

/-- pydantic validation of a `str` field: accepts a string, rejects any other
decoded value (pydantic v2 performs no int→str coercion). -/
def validate_str : JValue → Except String String
  | .str s => .ok s
  | _ => .error "Input should be a valid string"

/-- pydantic validation of an `Optional[int]` field.  The argument is the
Python value handed to the model constructor: `none` models Python `None`
(so does decoded JSON `null`).  Integers pass through; numeric strings are
coerced (pydantic v2 lax mode); booleans, arrays and objects are rejected. -/
def validate_opt_int : Option JValue → Except String (Option Int)
  | none => .ok none
  | some .null => .ok none
  | some (.int n) => .ok (some n)
  | some (.str s) =>
    match s.toInt? with
    | some n => .ok (some n)
    | none => .error "Input should be a valid integer"
  | some _ => .error "Input should be a valid integer"

/-- One iteration of the actions loop in `process_monster_data`
(api_client.py lines 89–94): `action_data.get('name', '')`,
`action_data.get('desc', '')`, then pydantic validation of `Action`.
Calling `.get` on a non-dict raises `AttributeError`. -/
def make_action : JValue → Except String Action
  | .obj fs => do
    let n ← validate_str ((fs.lookup "name").getD (.str ""))
    let d ← validate_str ((fs.lookup "desc").getD (.str ""))
    .ok ⟨n, d⟩
  | _ => .error "AttributeError: object has no attribute get"

/-- The actions block of `process_monster_data` (api_client.py lines 87–94):
if `'actions' in raw_data and raw_data['actions']`, build an `Action` per
entry; otherwise the empty list.  Iterating a truthy non-list eventually
raises in Python (`TypeError` for numbers/booleans, `AttributeError` on the
elements for strings and dicts), which the embedding collapses to one error. -/
def process_actions (raw : JObject) : Except String (List Action) :=
  match raw.lookup "actions" with
  | some v =>
    if truthy v then
      match v with
      | .arr xs => xs.mapM make_action
      | _ => .error "TypeError: object is not iterable of dicts"
    else .ok []
  | none => .ok []

/-- The armor_class block of `process_monster_data` (api_client.py lines
96–103).  Starts from `None`; if the field is present and truthy: a list takes
`raw_data['armor_class'][0].get('value')` (raising `AttributeError` when the
first entry is not a dict), a Python `int` (which includes booleans, since
`isinstance(True, int)` holds) is taken directly, and any other truthy shape
falls through leaving `None`.  Returns the Python value later validated by
pydantic; the inner `none` models Python `None`. -/
def extract_armor_class (raw : JObject) : Except String (Option JValue) :=
  match raw.lookup "armor_class" with
  | none => .ok none
  | some v =>
    if truthy v then
      match v with
      | .arr (x :: _) =>
        match x with
        | .obj fs => .ok (fs.lookup "value")
        | _ => .error "AttributeError: object has no attribute get"
      | .arr [] => .ok none
      | .int n => .ok (some (.int n))
      | .bool b => .ok (some (.bool b))
      | _ => .ok none
    else .ok none

/-- `DnDAPIClient.process_monster_data` (api_client.py lines 83–118): builds
the actions list, extracts armor_class, takes `raw_data.get('hit_points')`
and `raw_data.get('name', '')`, then constructs the pydantic `Monster`
(validating `name`, `hit_points`, `armor_class` in field order).  Any raised
exception is wrapped into `Exception("Failed to process monster data: ...")`. -/
def process_monster_data (raw : JObject) : Except String Monster :=
  match (do
    let actions ← process_actions raw
    let acv ← extract_armor_class raw
    let name ← validate_str ((raw.lookup "name").getD (.str ""))
    let hp ← validate_opt_int (raw.lookup "hit_points")
    let ac ← validate_opt_int acv
    pure (⟨name, hp, ac, actions⟩ : Monster) : Except String Monster) with
  | .ok m => .ok m
  | .error e => .error ("Failed to process monster data: " ++ e)

/-- `DnDAPIClient.select_random_monsters` (api_client.py lines 70–81): if
fewer monsters are available than requested, return the input list itself;
otherwise `random.sample(monsters, count)`.  The randomness of
`random.sample` is modelled by the parameter `perm`, an arbitrary permutation
of `monsters` (theorems assume `perm ~ monsters`): a uniform sample of `count`
elements without replacement is a `count`-prefix of a uniform shuffle. -/
def select_random_monsters (perm : List MonsterSummary)
    (monsters : List MonsterSummary) (count : Nat) : List MonsterSummary :=
  if monsters.length < count then monsters
  else perm.take count

/-- Whether a Python call raised (the `Except` computation ended in an error). -/
def raised {α : Type} : Except String α → Bool
  | .error _ => true
  | .ok _ => false

/-- The filesystem, as seen by the pipeline: an association list from
filenames to stored output documents.  File contents are modelled at the
document level (the JSON array that `json.dump` would serialize). -/
abbrev FileSys := List (String × List Monster)

/-- Read a file: first binding wins (writes shadow older bindings). -/
def getFile (w : FileSys) (f : String) : Option (List Monster) :=
  w.lookup f

/-- `DnDAPIClient.save_monsters_to_json` (api_client.py lines 120–131):
opens `filename` in mode `'w'` and writes the serialized monsters —
unconditionally, replacing any existing file — then returns the filename.
Explicit state passing: takes and returns the filesystem. -/
def save_monsters_to_json (monsters : List Monster) (filename : String)
    (w : FileSys) : FileSys × String :=
  ((filename, monsters) :: w, filename)

/-- `tasks.fetch_monsters_task` (tasks.py lines 17–30) composed with
`DnDAPIClient.fetch_monsters_list` (api_client.py lines 27–51): the network
result is the oracle `fetchRes`; a transport failure is re-raised wrapped,
otherwise the result list is truncated to the first `limit` entries when a
limit is given. -/
def fetch_monsters_task (fetchRes : Except String (List MonsterSummary))
    (limit : Option Nat) : Except String (List MonsterSummary) :=
  match fetchRes with
  | .error e => .error ("Failed to fetch monsters list: " ++ e)
  | .ok results =>
    match limit with
    | some l => .ok (results.take l)
    | none => .ok results

/-- `tasks.select_random_monsters_task` (tasks.py lines 33–57): pulls the
previous stage's output (`pulled`; `none` models an absent XCom value), raises
`ValueError` when it is falsy (`None` or `[]`), otherwise samples. -/
def select_random_monsters_task (pulled : Option (List MonsterSummary))
    (perm : List MonsterSummary) (count : Nat) :
    Except String (List MonsterSummary) :=
  match pulled with
  | none => .error "No monster data received from fetch_monsters task"
  | some ms =>
    if ms.isEmpty then
      .error "No monster data received from fetch_monsters task"
    else .ok (select_random_monsters perm ms count)

/-- `tasks.fetch_monster_details_task` (tasks.py lines 60–90): raises
`ValueError` on a falsy pull; otherwise, for each summary in order, fetches
its detail payload (`oracle` on the summary's url models
`DnDAPIClient.fetch_monster_details`) and normalizes it; any exception for an
item is caught, logged, and the loop continues with the next summary. -/
def fetch_monster_details_task (pulled : Option (List MonsterSummary))
    (oracle : String → Except String JObject) : Except String (List Monster) :=
  match pulled with
  | none =>
    .error "No selected monsters data received from select_random_monsters task"
  | some ms =>
    if ms.isEmpty then
      .error "No selected monsters data received from select_random_monsters task"
    else
      .ok (ms.filterMap fun s => ((oracle s.url).bind process_monster_data).toOption)

/-- `tasks.save_monsters_task` (tasks.py lines 93–113): raises `ValueError`
on a falsy pull, otherwise saves via `save_monsters_to_json`.  On error no
filesystem is returned: nothing was written. -/
def save_monsters_task (pulled : Option (List Monster)) (output_file : String)
    (w : FileSys) : Except String (String × FileSys) :=
  match pulled with
  | none => .error "No monster data received from fetch_monster_details task"
  | some ms =>
    if ms.isEmpty then
      .error "No monster data received from fetch_monster_details task"
    else
      let r := save_monsters_to_json ms output_file w
      .ok (r.2, r.1)

/-- The stage sequence of `main.main` (main.py lines 45–67): the four task
functions chained through the mock XCom objects, with `count = 5`, no fetch
limit, and destination `monsters.json`. -/
def run_pipeline (fetchRes : Except String (List MonsterSummary))
    (perm : List MonsterSummary) (oracle : String → Except String JObject)
    (w : FileSys) : Except String (String × FileSys) :=
  match fetch_monsters_task fetchRes none with
  | .error e => .error e
  | .ok monsters =>
    match select_random_monsters_task (some monsters) perm 5 with
    | .error e => .error e
    | .ok selected =>
      match fetch_monster_details_task (some selected) oracle with
      | .error e => .error e
      | .ok detailed => save_monsters_task (some detailed) "monsters.json" w

/-- `main.main` (main.py lines 29–73): if `monsters.json` already exists,
return exit code 0 without running any stage; otherwise run the four stages,
returning 0 on success and 1 on any exception.  The result is
(exit code, filesystem after the run, whether the stages were entered). -/
def main (fetchRes : Except String (List MonsterSummary))
    (perm : List MonsterSummary) (oracle : String → Except String JObject)
    (w : FileSys) : Int × FileSys × Bool :=
  if (getFile w "monsters.json").isSome then (0, w, false)
  else
    match run_pipeline fetchRes perm oracle w with
    | .ok r => (0, r.2, true)
    | .error _ => (1, w, true)

/-! ### Helper lemmas about `process_monster_data` -/

/-- When normalization succeeds, the stored `hit_points` is exactly the
pydantic validation of `raw_data.get('hit_points')`. -/
theorem process_ok_hit_points (raw : JObject) (m : Monster)
    (h : process_monster_data raw = .ok m) :
    validate_opt_int (raw.lookup "hit_points") = .ok m.hit_points := by
  unfold process_monster_data at h
  simp only [bind, Except.bind] at h
  cases ha : process_actions raw with
  | error e => simp [ha] at h
  | ok actions =>
  simp only [ha] at h
  cases hb : extract_armor_class raw with
  | error e => simp [hb] at h
  | ok acv =>
  simp only [hb] at h
  cases hc : validate_str ((raw.lookup "name").getD (.str "")) with
  | error e => simp [hc] at h
  | ok nm =>
  simp only [hc] at h
  cases hd : validate_opt_int (raw.lookup "hit_points") with
  | error e => simp [hd] at h
  | ok hp =>
  simp only [hd] at h
  cases he : validate_opt_int acv with
  | error e => simp [he] at h
  | ok ac =>
  simp only [he, pure, Except.pure, Except.ok.injEq] at h
  subst h
  rfl

/-- When normalization succeeds, the stored `armor_class` is the pydantic
validation of the value produced by the armor_class extraction block. -/
theorem process_ok_armor_class (raw : JObject) (m : Monster)
    (h : process_monster_data raw = .ok m) :
    ∃ acv, extract_armor_class raw = .ok acv ∧
      validate_opt_int acv = .ok m.armor_class := by
  unfold process_monster_data at h
  simp only [bind, Except.bind] at h
  cases ha : process_actions raw with
  | error e => simp [ha] at h
  | ok actions =>
  simp only [ha] at h
  cases hb : extract_armor_class raw with
  | error e => simp [hb] at h
  | ok acv =>
  simp only [hb] at h
  cases hc : validate_str ((raw.lookup "name").getD (.str "")) with
  | error e => simp [hc] at h
  | ok nm =>
  simp only [hc] at h
  cases hd : validate_opt_int (raw.lookup "hit_points") with
  | error e => simp [hd] at h
  | ok hp =>
  simp only [hd] at h
  cases he : validate_opt_int acv with
  | error e => simp [he] at h
  | ok ac =>
  simp only [he, pure, Except.pure, Except.ok.injEq] at h
  subst h
  exact ⟨acv, rfl, he⟩

/-- When the armor_class extraction block leaves Python `None`, the
normalized record (if normalization succeeds) stores the absent-marker. -/
theorem armor_class_none_of_extract_none (raw : JObject) (m : Monster)
    (h : process_monster_data raw = .ok m)
    (hx : extract_armor_class raw = .ok none) : m.armor_class = none := by
  obtain ⟨acv, hb, he⟩ := process_ok_armor_class raw m h
  have hacv : (none : Option JValue) = acv := Except.ok.inj (hx.symm.trans hb)
  rw [← hacv] at he
  simpa [validate_opt_int] using he.symm

/-! ### Claim theorems -/

/-- **C1, counterexample.**  The claim says a present `armor_class` with the
integer value `0` is stored as the real value `0`.  On the payload
`{"name": "X", "armor_class": 0}` the truthiness guard
`raw_data['armor_class']` is false for `0`, so `process_monster_data` stores
the absent-marker `none`, not `0`. -/
theorem C1_counterexample :
    process_monster_data [("name", JValue.str "X"), ("armor_class", JValue.int 0)]
      = .ok { name := "X", hit_points := none, armor_class := none, actions := [] }
    ∧ (none : Option Int) ≠ some 0 :=
  ⟨rfl, by decide⟩

/-- **C1, amended.**  A present `armor_class` field with integer value `0`
is coerced to the absent-marker by the truthiness guard, exactly as when the
field is null or structurally missing; only the falsy values collapse this
way, a nonzero bare integer is preserved. -/
theorem C1_amended_armor_class_zero (raw : JObject) (m : Monster)
    (h : process_monster_data raw = .ok m) :
    (raw.lookup "armor_class" = some (JValue.int 0) → m.armor_class = none)
    ∧ (raw.lookup "armor_class" = some JValue.null → m.armor_class = none)
    ∧ (raw.lookup "armor_class" = none → m.armor_class = none)
    ∧ (∀ n : Int, n ≠ 0 → raw.lookup "armor_class" = some (JValue.int n) →
        m.armor_class = some n) := by
  refine ⟨?_, ?_, ?_, ?_⟩
  · intro hl
    exact armor_class_none_of_extract_none raw m h
      (by simp [extract_armor_class, hl, truthy])
  · intro hl
    exact armor_class_none_of_extract_none raw m h
      (by simp [extract_armor_class, hl, truthy])
  · intro hl
    exact armor_class_none_of_extract_none raw m h
      (by simp [extract_armor_class, hl])
  · intro n hn hl
    obtain ⟨acv, hb, he⟩ := process_ok_armor_class raw m h
    rw [extract_armor_class, hl] at hb
    simp [truthy, hn] at hb
    subst hb
    simpa [validate_opt_int] using he.symm

/-- **C1, witness.**  Applying the amended theorem to the payload
`{"name": "Z", "armor_class": 0}`. -/
theorem C1_witness :
    process_monster_data [("name", JValue.str "Z"), ("armor_class", JValue.int 0)]
      = .ok { name := "Z", hit_points := none, armor_class := none, actions := [] }
    ∧ ({ name := "Z", hit_points := none, armor_class := none, actions := [] }
        : Monster).armor_class = none :=
  ⟨rfl, (C1_amended_armor_class_zero
    [("name", JValue.str "Z"), ("armor_class", JValue.int 0)]
    { name := "Z", hit_points := none, armor_class := none, actions := [] }
    rfl).1 rfl⟩

/-- **C3, counterexample.**  The claim says every unexpected `armor_class`
shape yields the absent-marker without raising.  On the payload
`{"name": "X", "armor_class": [15]}` — a non-empty sequence whose first entry
is not an object, hence none of the three accepted shapes — the code calls
`.get` on the integer `15`, raising `AttributeError`, which
`process_monster_data` re-raises wrapped. -/
theorem C3_counterexample :
    raised (process_monster_data
      [("name", JValue.str "X"), ("armor_class", JValue.arr [JValue.int 15])])
      = true :=
  rfl

/-- **C3, amended.**  An unexpected `armor_class` shape that is neither a
sequence nor a boolean — a string, an object, or null — does not raise and
yields the absent-marker; a non-empty sequence whose first entry is not an
object (and the boolean `true`) raise instead of falling through. -/
theorem C3_amended_unexpected_benign (raw : JObject) (v : JValue) (m : Monster)
    (hl : raw.lookup "armor_class" = some v)
    (hshape : (∃ s, v = JValue.str s) ∨ (∃ fs, v = JValue.obj fs) ∨
      v = JValue.null ∨ v = JValue.bool false)
    (h : process_monster_data raw = .ok m) :
    extract_armor_class raw = .ok none ∧ m.armor_class = none := by
  have hx : extract_armor_class raw = .ok none := by
    rcases hshape with ⟨s, rfl⟩ | ⟨fs, rfl⟩ | rfl | rfl <;>
      simp [extract_armor_class, hl, truthy]
  exact ⟨hx, armor_class_none_of_extract_none raw m h hx⟩

/-- **C3, witness.**  Applying the amended theorem to the payload
`{"name": "X", "armor_class": "heavy"}` (a string-shaped armor_class). -/
theorem C3_witness :
    process_monster_data [("name", JValue.str "X"), ("armor_class", JValue.str "heavy")]
      = .ok { name := "X", hit_points := none, armor_class := none, actions := [] }
    ∧ extract_armor_class
        [("name", JValue.str "X"), ("armor_class", JValue.str "heavy")] = .ok none
    ∧ ({ name := "X", hit_points := none, armor_class := none, actions := [] }
        : Monster).armor_class = none := by
  refine ⟨rfl, ?_, ?_⟩
  · exact (C3_amended_unexpected_benign
      [("name", JValue.str "X"), ("armor_class", JValue.str "heavy")]
      (JValue.str "heavy")
      { name := "X", hit_points := none, armor_class := none, actions := [] }
      rfl (Or.inl ⟨"heavy", rfl⟩) rfl).1
  · exact (C3_amended_unexpected_benign
      [("name", JValue.str "X"), ("armor_class", JValue.str "heavy")]
      (JValue.str "heavy")
      { name := "X", hit_points := none, armor_class := none, actions := [] }
      rfl (Or.inl ⟨"heavy", rfl⟩) rfl).2

/-- **C4.**  `hit_points: 0` is stored as `0`, never the absent-marker; a
missing `hit_points` key and an explicit `hit_points: null` both yield the
absent-marker. -/
theorem C4_hit_points_zero_vs_absent (raw : JObject) (m : Monster)
    (h : process_monster_data raw = .ok m) :
    (raw.lookup "hit_points" = some (JValue.int 0) → m.hit_points = some 0)
    ∧ (raw.lookup "hit_points" = none → m.hit_points = none)
    ∧ (raw.lookup "hit_points" = some JValue.null → m.hit_points = none) := by
  have hd := process_ok_hit_points raw m h
  refine ⟨?_, ?_, ?_⟩ <;> intro hl <;> rw [hl] at hd <;>
    simpa [validate_opt_int] using hd.symm

/-- **C4, witness.**  Applying the theorem to `{"name": "A", "hit_points": 0}`,
`{"name": "A"}` and `{"name": "A", "hit_points": null}`. -/
theorem C4_witness :
    process_monster_data [("name", JValue.str "A"), ("hit_points", JValue.int 0)]
      = .ok { name := "A", hit_points := some 0, armor_class := none, actions := [] }
    ∧ ({ name := "A", hit_points := some 0, armor_class := none, actions := [] }
        : Monster).hit_points = some 0
    ∧ ({ name := "A", hit_points := none, armor_class := none, actions := [] }
        : Monster).hit_points = none :=
  ⟨rfl,
   (C4_hit_points_zero_vs_absent
      [("name", JValue.str "A"), ("hit_points", JValue.int 0)]
      { name := "A", hit_points := some 0, armor_class := none, actions := [] }
      rfl).1 rfl,
   (C4_hit_points_zero_vs_absent
      [("name", JValue.str "A"), ("hit_points", JValue.null)]
      { name := "A", hit_points := none, armor_class := none, actions := [] }
      rfl).2.2 rfl⟩

/-- **C5.**  armor_class shape coverage: `[{"value": 15}]` maps to `15`, the
bare integer `12` to `12`, the empty list and a missing field to the
absent-marker, and a first list entry lacking a `value` key to the
absent-marker. -/
theorem C5_armor_class_shape_coverage (raw : JObject) (m : Monster)
    (h : process_monster_data raw = .ok m) :
    (raw.lookup "armor_class" = some (JValue.arr [JValue.obj [("value", JValue.int 15)]])
        → m.armor_class = some 15)
    ∧ (raw.lookup "armor_class" = some (JValue.int 12) → m.armor_class = some 12)
    ∧ (raw.lookup "armor_class" = some (JValue.arr []) → m.armor_class = none)
    ∧ (raw.lookup "armor_class" = none → m.armor_class = none)
    ∧ (∀ fs rest, raw.lookup "armor_class" = some (JValue.arr (JValue.obj fs :: rest))
        → fs.lookup "value" = none → m.armor_class = none) := by
  obtain ⟨acv, hb, he⟩ := process_ok_armor_class raw m h
  refine ⟨?_, ?_, ?_, ?_, ?_⟩
  · intro hl
    rw [extract_armor_class, hl] at hb
    simp [truthy, List.lookup] at hb
    subst hb
    simpa [validate_opt_int] using he.symm
  · intro hl
    rw [extract_armor_class, hl] at hb
    simp [truthy] at hb
    subst hb
    simpa [validate_opt_int] using he.symm
  · intro hl
    rw [extract_armor_class, hl] at hb
    simp [truthy] at hb
    subst hb
    simpa [validate_opt_int] using he.symm
  · intro hl
    rw [extract_armor_class, hl] at hb
    simp at hb
    subst hb
    simpa [validate_opt_int] using he.symm
  · intro fs rest hl hv
    rw [extract_armor_class, hl] at hb
    simp [truthy, hv] at hb
    subst hb
    simpa [validate_opt_int] using he.symm

/-- **C5, witness.**  Applying the theorem to the four concrete payload
shapes from the spec's shape-coverage property. -/
theorem C5_witness :
    process_monster_data
      [("name", JValue.str "G"),
       ("armor_class", JValue.arr [JValue.obj [("value", JValue.int 15)]])]
      = .ok { name := "G", hit_points := none, armor_class := some 15, actions := [] }
    ∧ ({ name := "G", hit_points := none, armor_class := some 15, actions := [] }
        : Monster).armor_class = some 15
    ∧ ({ name := "G", hit_points := none, armor_class := some 12, actions := [] }
        : Monster).armor_class = some 12
    ∧ ({ name := "G", hit_points := none, armor_class := none, actions := [] }
        : Monster).armor_class = none :=
  ⟨rfl,
   (C5_armor_class_shape_coverage
      [("name", JValue.str "G"),
       ("armor_class", JValue.arr [JValue.obj [("value", JValue.int 15)]])]
      { name := "G", hit_points := none, armor_class := some 15, actions := [] }
      rfl).1 rfl,
   (C5_armor_class_shape_coverage
      [("name", JValue.str "G"), ("armor_class", JValue.int 12)]
      { name := "G", hit_points := none, armor_class := some 12, actions := [] }
      rfl).2.1 rfl,
   (C5_armor_class_shape_coverage
      [("name", JValue.str "G"), ("armor_class", JValue.arr [])]
      { name := "G", hit_points := none, armor_class := none, actions := [] }
      rfl).2.2.1 rfl⟩

/-- A sample stored monster document. -/
def goblin : Monster :=
  { name := "Goblin", hit_points := some 7, armor_class := some 15, actions := [] }

/-- A second sample monster, distinct from `goblin`. -/
def imp : Monster :=
  { name := "Imp", hit_points := some 3, armor_class := none, actions := [] }

/-- **C2, counterexample.**  The claim says `save_monsters_to_json` refuses
to overwrite an existing destination.  Saving the one-element collection
`[imp]` to `out.json` on a filesystem where `out.json` already holds
`[goblin]` replaces the file's content with `[imp]`: the write is
unconditional (`open(filename, 'w')`), nothing is refused. -/
theorem C2_counterexample :
    getFile [("out.json", [goblin])] "out.json" = some [goblin]
    ∧ getFile (save_monsters_to_json [imp] "out.json" [("out.json", [goblin])]).1
        "out.json" = some [imp]
    ∧ some [imp] ≠ some [goblin] :=
  ⟨rfl, rfl, by decide⟩

/-- **C2, amended.**  For every entity sequence and destination path,
`save_monsters_to_json` writes the serialized collection to the destination
unconditionally — replacing any existing file content — and returns the
destination path; the refusal to redo work against an existing output file is
implemented in the Driver (`main`), which skips every stage, not in the
Persister. -/
theorem C2_amended_save_always_writes (monsters : List Monster)
    (filename : String) (w : FileSys) :
    (save_monsters_to_json monsters filename w).2 = filename
    ∧ getFile (save_monsters_to_json monsters filename w).1 filename
        = some monsters := by
  constructor
  · rfl
  · simp [save_monsters_to_json, getFile, List.lookup]

/-- **C6.**  Sampling cardinality: with the randomness of `random.sample`
modelled as an arbitrary permutation `perm` of the population, the selection
returns `min n count` items; when `count ≤ n` the result is a sub-permutation
of the input (count distinct positions, no element chosen twice); an empty
population yields the empty sequence for any requested count. -/
theorem C6_sampling_cardinality (monsters perm : List MonsterSummary)
    (count : Nat) (hperm : perm.Perm monsters) :
    (select_random_monsters perm monsters count).length
        = min monsters.length count
    ∧ (count ≤ monsters.length →
        (select_random_monsters perm monsters count).Subperm monsters)
    ∧ (monsters = [] → select_random_monsters perm monsters count = []) := by
  refine ⟨?_, ?_, ?_⟩
  · unfold select_random_monsters
    split
    · omega
    · rw [List.length_take, hperm.length_eq]
      omega
  · intro hc
    unfold select_random_monsters
    rw [if_neg (by omega)]
    exact ((List.take_sublist count perm).subperm).trans hperm.subperm
  · intro hnil
    subst hnil
    unfold select_random_monsters
    split
    · rfl
    · rw [hperm.eq_nil, List.take_nil]

/-- **C6, witness.**  Applying the theorem to a three-monster population,
the identity permutation, and a request for two. -/
theorem C6_witness :
    (select_random_monsters
        [⟨"a", "A", "/a"⟩, ⟨"b", "B", "/b"⟩, ⟨"c", "C", "/c"⟩]
        [⟨"a", "A", "/a"⟩, ⟨"b", "B", "/b"⟩, ⟨"c", "C", "/c"⟩] 2).length
      = min ([⟨"a", "A", "/a"⟩, ⟨"b", "B", "/b"⟩, ⟨"c", "C", "/c"⟩]
          : List MonsterSummary).length 2
    ∧ (2 ≤ ([⟨"a", "A", "/a"⟩, ⟨"b", "B", "/b"⟩, ⟨"c", "C", "/c"⟩]
          : List MonsterSummary).length →
        (select_random_monsters
          [⟨"a", "A", "/a"⟩, ⟨"b", "B", "/b"⟩, ⟨"c", "C", "/c"⟩]
          [⟨"a", "A", "/a"⟩, ⟨"b", "B", "/b"⟩, ⟨"c", "C", "/c"⟩] 2).Subperm
          [⟨"a", "A", "/a"⟩, ⟨"b", "B", "/b"⟩, ⟨"c", "C", "/c"⟩])
    ∧ (([⟨"a", "A", "/a"⟩, ⟨"b", "B", "/b"⟩, ⟨"c", "C", "/c"⟩]
          : List MonsterSummary) = [] →
        select_random_monsters
          [⟨"a", "A", "/a"⟩, ⟨"b", "B", "/b"⟩, ⟨"c", "C", "/c"⟩]
          [⟨"a", "A", "/a"⟩, ⟨"b", "B", "/b"⟩, ⟨"c", "C", "/c"⟩] 2 = []) :=
  C6_sampling_cardinality
    [⟨"a", "A", "/a"⟩, ⟨"b", "B", "/b"⟩, ⟨"c", "C", "/c"⟩]
    [⟨"a", "A", "/a"⟩, ⟨"b", "B", "/b"⟩, ⟨"c", "C", "/c"⟩] 2 (List.Perm.refl _)

/-- **C10.**  When the population is strictly smaller than the requested
count, `select_random_monsters` returns the input list itself — the very same
elements in the same order, no reordering or copying. -/
theorem C10_undersized_population_returned_as_is
    (monsters perm : List MonsterSummary) (count : Nat)
    (h : monsters.length < count) :
    select_random_monsters perm monsters count = monsters := by
  unfold select_random_monsters
  exact if_pos h

/-- **C10, witness.**  Two monsters, five requested: the input comes back. -/
theorem C10_witness :
    ([⟨"a", "A", "/a"⟩, ⟨"b", "B", "/b"⟩] : List MonsterSummary).length < 5
    ∧ select_random_monsters [] [⟨"a", "A", "/a"⟩, ⟨"b", "B", "/b"⟩] 5
        = [⟨"a", "A", "/a"⟩, ⟨"b", "B", "/b"⟩] :=
  ⟨by decide,
   C10_undersized_population_returned_as_is
     [⟨"a", "A", "/a"⟩, ⟨"b", "B", "/b"⟩] [] 5 (by decide)⟩

/-- **C7.**  Per-item failure isolation in the Enricher: on any non-empty
input, `fetch_monster_details_task` never fails as a whole; its output is
exactly the in-order filter of the summaries whose detail fetch and
normalization both succeed, so a summary whose fetch or normalization raises
is dropped and processing continues. -/
theorem C7_per_item_failure_isolation (ms : List MonsterSummary)
    (oracle : String → Except String JObject) (h : ms ≠ []) :
    fetch_monster_details_task (some ms) oracle
      = .ok (ms.filterMap fun s =>
          ((oracle s.url).bind process_monster_data).toOption) := by
  cases ms with
  | nil => exact absurd rfl h
  | cons a t => rfl

/-- **C7, witness.**  Two summaries where the detail fetch for the second
raises: the output is exactly the first monster, and the stage succeeds. -/
theorem C7_witness :
    ([⟨"g", "G", "/g"⟩, ⟨"b", "B", "/b"⟩] : List MonsterSummary) ≠ []
    ∧ fetch_monster_details_task
        (some [⟨"g", "G", "/g"⟩, ⟨"b", "B", "/b"⟩])
        (fun u => if u = "/g" then .ok [("name", JValue.str "G")]
          else .error "boom")
      = .ok [{ name := "G", hit_points := none, armor_class := none, actions := [] }] := by
  refine ⟨by decide, ?_⟩
  rw [C7_per_item_failure_isolation [⟨"g", "G", "/g"⟩, ⟨"b", "B", "/b"⟩]
    (fun u => if u = "/g" then .ok [("name", JValue.str "G")] else .error "boom")
    (by decide)]
  rfl

/-- **C8.**  Each of the Sampler, Enricher and Persister task stages raises
(`ValueError`) as soon as the value pulled from the previous stage's hand-off
is absent (`none`) or empty (`[]`); the error is raised before any stage work
and, for the Persister, no filesystem is returned, so nothing is written. -/
theorem C8_missing_upstream_data
    (pS : Option (List MonsterSummary)) (pM : Option (List Monster))
    (perm : List MonsterSummary) (count : Nat)
    (oracle : String → Except String JObject) (file : String) (w : FileSys)
    (hS : pS = none ∨ pS = some []) (hM : pM = none ∨ pM = some []) :
    raised (select_random_monsters_task pS perm count) = true
    ∧ raised (fetch_monster_details_task pS oracle) = true
    ∧ raised (save_monsters_task pM file w) = true := by
  refine ⟨?_, ?_, ?_⟩
  · rcases hS with rfl | rfl <;> rfl
  · rcases hS with rfl | rfl <;> rfl
  · rcases hM with rfl | rfl <;> rfl

/-- **C8, witness.**  Applying the theorem to an absent pull for the Sampler
and Enricher and an empty pull for the Persister. -/
theorem C8_witness :
    raised (select_random_monsters_task none [] 5) = true
    ∧ raised (fetch_monster_details_task none (fun _ => .error "unused")) = true
    ∧ raised (save_monsters_task (some []) "monsters.json" []) = true :=
  C8_missing_upstream_data none (some []) [] 5 (fun _ => .error "unused")
    "monsters.json" [] (Or.inl rfl) (Or.inr rfl)

/-- When the Driver's stage sequence completes successfully, it has written
the enriched collection to `monsters.json` (shadowing any previous binding)
and touched nothing else in the filesystem. -/
theorem run_pipeline_ok_writes (fr : Except String (List MonsterSummary))
    (perm : List MonsterSummary) (oracle : String → Except String JObject)
    (w : FileSys) (p : String × FileSys)
    (h : run_pipeline fr perm oracle w = .ok p) :
    ∃ ms : List Monster, ms ≠ [] ∧ p.2 = ("monsters.json", ms) :: w := by
  unfold run_pipeline at h
  cases h1 : fetch_monsters_task fr none with
  | error e => simp [h1] at h
  | ok monsters =>
  simp only [h1] at h
  cases h2 : select_random_monsters_task (some monsters) perm 5 with
  | error e => simp [h2] at h
  | ok selected =>
  simp only [h2] at h
  cases h3 : fetch_monster_details_task (some selected) oracle with
  | error e => simp [h3] at h
  | ok detailed =>
  simp only [h3] at h
  cases detailed with
  | nil => simp [save_monsters_task] at h
  | cons a t =>
    refine ⟨a :: t, by simp, ?_⟩
    have h4 : ("monsters.json", ("monsters.json", a :: t) :: w) = p :=
      Except.ok.inj h
    rw [← h4]

/-- **C9.**  Driver idempotency: when `monsters.json` already exists, `main`
returns exit code 0 with the filesystem unchanged and the stages not entered;
and after any successful stage-running invocation, a second invocation (with
any fetch result, sampling permutation and detail oracle) is such a no-op.
So running the Driver twice performs the stages only on the first run. -/
theorem C9_driver_idempotency (fr fr2 : Except String (List MonsterSummary))
    (perm perm2 : List MonsterSummary)
    (oracle oracle2 : String → Except String JObject) (w : FileSys) :
    ((getFile w "monsters.json").isSome = true →
        main fr perm oracle w = (0, w, false))
    ∧ (∀ (r : Int) (w1 : FileSys), main fr perm oracle w = (r, w1, true) →
        r = 0 → main fr2 perm2 oracle2 w1 = (0, w1, false)) := by
  constructor
  · intro hg
    simp [main, hg]
  · intro r w1 hrun hr
    unfold main at hrun
    by_cases hg : (getFile w "monsters.json").isSome = true
    · rw [if_pos hg] at hrun
      simp only [Prod.mk.injEq] at hrun
      exact absurd hrun.2.2 (by simp)
    · rw [if_neg hg] at hrun
      cases hp : run_pipeline fr perm oracle w with
      | error e =>
        simp only [hp, Prod.mk.injEq] at hrun
        omega
      | ok p =>
        simp only [hp, Prod.mk.injEq] at hrun
        obtain ⟨ms, hne, hms⟩ := run_pipeline_ok_writes fr perm oracle w p hp
        rw [← hrun.2.1, hms]
        simp [main, getFile, List.lookup]

/-- **C9, witness.**  A concrete successful first run (one catalog entry, a
detail oracle that succeeds) writes `monsters.json`; the second run against
the resulting filesystem is a no-op, by the theorem. -/
theorem C9_witness :
    main (.ok [⟨"g", "G", "/g"⟩]) [] (fun _ => .ok [("name", JValue.str "G")]) []
      = (0, [("monsters.json",
          [{ name := "G", hit_points := none, armor_class := none, actions := [] }])],
          true)
    ∧ main (.ok [⟨"g", "G", "/g"⟩]) [] (fun _ => .ok [("name", JValue.str "G")])
        [("monsters.json",
          [{ name := "G", hit_points := none, armor_class := none, actions := [] }])]
      = (0, [("monsters.json",
          [{ name := "G", hit_points := none, armor_class := none, actions := [] }])],
          false) :=
  ⟨rfl,
   (C9_driver_idempotency
      (.ok [⟨"g", "G", "/g"⟩]) (.ok [⟨"g", "G", "/g"⟩]) [] []
      (fun _ => .ok [("name", JValue.str "G")])
      (fun _ => .ok [("name", JValue.str "G")]) []).2 0
      [("monsters.json",
        [{ name := "G", hit_points := none, armor_class := none, actions := [] }])]
      rfl rfl⟩

end DnD
